import Mathlib

/-!
Shallow embedding of the voice-translator FastAPI backend (`main.py`,
`notmain.py`).  Handlers are modelled as pure functions over an explicit
environment (the responses the external providers would give) and an
explicit scratch-directory state (a list of `(name, content)` pairs).
Exceptions are modelled with `Except`; an uncaught `HTTPException` is the
HTTP response FastAPI sends.
-/

/-- Python `str.startswith`, modelled on the character list of the string. -/
def pyStartsWith (s pat : String) : Bool :=
  pat.data.isPrefixOf s.data

/-- Python `str.endswith`, modelled on the character list of the string. -/
def pyEndsWith (s pat : String) : Bool :=
  pat.data.isSuffixOf s.data

/-- An exception value as the handlers see it.  `http` is
`fastapi.HTTPException(status_code, detail)`; `plain` is any other
exception (e.g. `requests.exceptions.HTTPError` from `raise_for_status`,
or a bare `Exception(msg)`), carrying its `str()` text. -/
inductive Exc where
  | http (statusCode : Nat) (detail : String)
  | plain (msg : String)
deriving DecidableEq

instance {ε α : Type} [DecidableEq ε] [DecidableEq α] : DecidableEq (Except ε α)
  | .ok x, .ok y => decidable_of_iff (x = y) (by simp)
  | .error x, .error y => decidable_of_iff (x = y) (by simp)
  | .ok _, .error _ => isFalse (fun h => Except.noConfusion h)
  | .error _, .ok _ => isFalse (fun h => Except.noConfusion h)

/-- Python `str(e)` for an exception.  Starlette defines
`HTTPException.__str__` as `f"{self.status_code}: {self.detail}"`, so a
re-wrapped `HTTPException` carries its status code in the text; a plain
exception stringifies to its message. -/
def strOfExc : Exc → String
  | .http c d => toString c ++ ": " ++ d
  | .plain m => m

/-- The scratch directory `temp_audio`: a finite map from file name to
file content, names unique. -/
abbrev FileSys := List (String × String)

/-- `os.remove` (plus the guarding `os.path.exists` check): the entry with
this name, if any, is gone afterwards. -/
def removeFile (fs : FileSys) (p : String) : FileSys :=
  fs.filter (fun q => q.1 ≠ p)

/-- `open(name, "wb")` followed by `write(content)`: creates the file or
truncates an existing one. -/
def writeOut (fs : FileSys) (name content : String) : FileSys :=
  (name, content) :: removeFile fs name

/-- `os.path.splitext(filename)[1]`: the extension from the last dot,
where dots that merely lead the name do not start an extension. -/
def splitextExt (filename : String) : String :=
  let cs := filename.data
  let rest := cs.drop ((cs.takeWhile (fun c => c = '.')).length)
  if rest.contains '.' then
    String.mk (rest.drop (rest.length - (rest.reverse.takeWhile (fun c => c ≠ '.')).length - 1))
  else ""

/-- Python `str.lower`, character by character. -/
def pyLower (s : String) : String :=
  String.mk (s.data.map Char.toLower)

/-- `os.path.splitext(audio.filename)[1].lower() or ".mp3"` from
`transcribe_audio`. -/
def file_extension (filename : String) : String :=
  let e := pyLower (splitextExt filename)
  if e = "" then ".mp3" else e

/-- One response of the provider's transcript-status endpoint
(`GET /v2/transcript/{id}`).  `httpError` is `some msg` when
`raise_for_status()` would raise; the remaining fields are the JSON body:
`status`, `text`, the optional `language_code`, and the `error` message
used when `status == "error"`. -/
structure PollResp where
  httpError : Option String
  status : String
  text : String
  language_code : Option String
  errMsg : String
deriving DecidableEq

/-- The JSON object returned by `/transcribe` on success. -/
structure TranscribeOut where
  text : String
  language_detected : String
deriving DecidableEq

/-- Environment of one `/transcribe` request: the uploaded file's declared
content type, name and bytes, the generated uuid, and the outcomes of the
three kinds of external calls (upload, job submission, and the indexed
sequence of status polls). -/
structure TranscribeEnv where
  contentType : String
  filename : String
  body : String
  uniqueId : String
  upload : Except String String
  submit : Except String String
  polls : Nat → PollResp

/-- `temp_audio/input_{unique_id}{file_extension}`. -/
def inputPath (env : TranscribeEnv) : String :=
  "temp_audio/input_" ++ env.uniqueId ++ file_extension env.filename

/-- The `for _ in range(30)` polling loop of `transcribe_audio`, with the
attempt index `i` and the remaining attempt budget as fuel.  Returns the
outcome of the `try` body together with the number of status calls made.
Exhausting the budget raises `HTTPException(500, "Transcription timeout")`. -/
def pollLoop (polls : Nat → PollResp) (i fuel : Nat) :
    Except Exc TranscribeOut × Nat :=
  match fuel with
  | 0 => (.error (.http 500 "Transcription timeout"), 0)
  | fuel' + 1 =>
    let r := polls i
    match r.httpError with
    | some m => (.error (.plain m), 1)
    | none =>
      if r.status = "completed" then
        (.ok ⟨r.text, r.language_code.getD "unknown"⟩, 1)
      else if r.status = "error" then
        (.error (.http 500 ("AssemblyAI error: " ++ r.errMsg)), 1)
      else
        let p := pollLoop polls (i + 1) fuel'
        (p.1, p.2 + 1)

/-- What one `/transcribe` request leaves behind: the response (success
body or uncaught `HTTPException`), the number of status calls, the total
number of external calls (upload + submit + status polls), and the final
scratch directory. -/
structure TranscribeResult where
  response : Except Exc TranscribeOut
  statusCalls : Nat
  externalCalls : Nat
  files : FileSys

/-- The `/transcribe` handler.  The non-audio content-type check happens
before the `try`, so its 400 is not re-wrapped; everything raised inside
the `try` is caught by `except Exception` and re-raised as
`HTTPException(500, str(e))`; the `finally` removes the scratch input
file on every path that created it. -/
def transcribe_audio (env : TranscribeEnv) (fs : FileSys) : TranscribeResult :=
  if !pyStartsWith env.contentType "audio/" then
    ⟨.error (.http 400 "Invalid audio file"), 0, 0, fs⟩
  else
    let input_path := inputPath env
    let fs1 := writeOut fs input_path env.body
    let step : Except Exc TranscribeOut × Nat × Nat :=
      match env.upload with
      | .error m => (.error (.plain m), 0, 1)
      | .ok _ =>
        match env.submit with
        | .error m => (.error (.plain m), 0, 2)
        | .ok _ =>
          let p := pollLoop env.polls 0 30
          (p.1, p.2, 2 + p.2)
    let wrapped : Except Exc TranscribeOut :=
      match step.1 with
      | .ok v => .ok v
      | .error e => .error (.http 500 (strOfExc e))
    ⟨wrapped, step.2.1, step.2.2, removeFile fs1 input_path⟩

/-- A poll response that is neither terminal nor a transport failure:
the loop sleeps and retries on it. -/
def NonTerminal (r : PollResp) : Prop :=
  r.httpError = none ∧ r.status ≠ "completed" ∧ r.status ≠ "error"

/-- A translation request as sent to the Google endpoint. -/
structure TransReq where
  q : String
  source : String
  target : String
deriving DecidableEq

/-- The JSON object returned by `/translate` on success. -/
structure TranslateOut where
  translated_text : String
deriving DecidableEq

/-- The `/translate` handler, over a deterministic provider stub mapping
each request to either a failure text (raise_for_status / parse error,
re-wrapped by the `except` clause) or the `translatedText` field.  The
scratch directory is threaded to make it explicit that the handler never
touches it. -/
def translate_text (stub : TransReq → Except String String)
    (text source_language target_language : String) (fs : FileSys) :
    Except Exc TranslateOut × FileSys :=
  match stub ⟨text, source_language, target_language⟩ with
  | .error m => (.error (.http 500 m), fs)
  | .ok t => (.ok ⟨t⟩, fs)

/-- The static Google-language-code → Azure-voice table `TTS_VOICES`. -/
def TTS_VOICES : List (String × String) :=
  [("en", "en-US-JennyNeural"),
   ("es", "es-ES-ElviraNeural"),
   ("fr", "fr-FR-DeniseNeural"),
   ("de", "de-DE-KatjaNeural"),
   ("fa", "fa-IR-FaridNeural")]

/-- `TTS_VOICES.get(language, "fa-IR-FaridNeural")`. -/
def ttsVoice (language : String) : String :=
  (List.lookup language TTS_VOICES).getD "fa-IR-FaridNeural"

/-- `language if language in TTS_VOICES else "fa-IR"`. -/
def ttsLangCode (language : String) : String :=
  if (List.lookup language TTS_VOICES).isSome then language else "fa-IR"

/-- The SSML payload built by `text_to_speech` (text interpolated
unescaped into the voice tag). -/
def ssmlOf (lang_code voice text : String) : String :=
  "\n            <speak version=\x27" ++ "1.0" ++ "\x27 xml:lang=\x27" ++ lang_code ++
    "\x27>\n                <voice name=\x27" ++ voice ++ "\x27>" ++ text ++
    "</voice>\n            </speak>\n            "

/-- Environment of one `/tts` request: the form fields, the random part
of the `tempfile.NamedTemporaryFile` name, and the Azure response
(status code and body; the body is also the bytes written on success). -/
structure TtsEnv where
  text : String
  language : String
  rand : String
  ttsStatus : Nat
  ttsBody : String

/-- The on-disk name `tempfile.NamedTemporaryFile(suffix=".mp3",
dir="temp_audio")` allocates: default prefix `tmp`, then random
characters, then the suffix. -/
def tmpNameOf (env : TtsEnv) : String :=
  "temp_audio/tmp" ++ env.rand ++ ".mp3"

/-- The `/tts` handler.  `NamedTemporaryFile(delete=False)` creates the
(empty) scratch file before anything else; every exception inside the
`try` is re-wrapped as `HTTPException(500, str(e))`; the `finally` block
is `pass`, so nothing is ever deleted by the handler. -/
def text_to_speech (env : TtsEnv) (fs : FileSys) :
    Except Exc String × FileSys :=
  let output_path := tmpNameOf env
  let fs1 := writeOut fs output_path ""
  let _ssml := ssmlOf (ttsLangCode env.language) (ttsVoice env.language) env.text
  let inner : Except Exc String × FileSys :=
    if env.ttsStatus ≠ 200 then
      (.error (.http 500 ("Azure TTS error: " ++ env.ttsBody)), fs1)
    else
      let fs2 := writeOut fs1 output_path env.ttsBody
      if (List.lookup output_path fs2).isSome then
        (.ok output_path, fs2)
      else
        (.error (.http 500 ("Failed to create audio file: " ++ output_path)), fs2)
  match inner.1 with
  | .ok v => (.ok v, inner.2)
  | .error e => (.error (.http 500 (strOfExc e)), inner.2)

/-- `glob.glob("temp_audio/output_*.mp3")` membership: the fixed leading
part, the fixed suffix, and a `*` part that cannot cross a `/`. -/
def sweepMatches (n : String) : Bool :=
  pyStartsWith n "temp_audio/output_" && pyEndsWith n ".mp3" &&
    decide (22 ≤ n.data.length) &&
    !(((n.data.drop 18).take (n.data.length - 22)).contains '/')

/-- The shutdown hook `cleanup_temp_files`: removes every file whose name
the glob matches. -/
def cleanup_temp_files (fs : FileSys) : FileSys :=
  fs.filter (fun p => !sweepMatches p.1)

/-- The JSON object returned by `/get-realtime-token` on success. -/
structure TokenOut where
  token : String
  api_host : String
  websocket_url : String
deriving DecidableEq

/-- Environment of one `/get-realtime-token` request: the configured key
(empty models a missing key), the status of the key-test call, and the
streaming-token call's status, JSON parseability, optional `token` field,
body text and dict repr. -/
structure TokenEnv where
  apiKey : String
  testStatus : Nat
  tokStatus : Nat
  tokJsonOk : Bool
  tokToken : Option String
  tokText : String
  tokJsonRepr : String

/-- Error text of the token endpoint for upstream 401. -/
def msg401 : String := "Invalid AssemblyAI API key for Universal Streaming API"

/-- Error text of the token endpoint for upstream 403. -/
def msg403 : String :=
  "Universal Streaming API access denied. Your AssemblyAI account may not have streaming access. Please check your plan at https://www.assemblyai.com/dashboard/"

/-- Error text of the token endpoint for upstream 404. -/
def msg404 : String :=
  "Universal Streaming API endpoint not found. This feature may not be available in your region or plan."

/-- Error text of the token endpoint for any other non-200 upstream
status. -/
def msgOther (code : Nat) (text : String) : String :=
  "AssemblyAI Universal Streaming API returned " ++ toString code ++ ": " ++ text

/-- The detail string of the catch-all `except Exception` of
`get_realtime_token`: `"Failed to create Universal Streaming token: " +
str(e)`. -/
def tokenDetail (m : String) : String :=
  "Failed to create Universal Streaming token: " ++ m

/-- The catch-all `except Exception` of `get_realtime_token`: every inner
failure becomes `HTTPException(500, tokenDetail (str(e)))`. -/
def wrapTokenFail (m : String) : Except Exc TokenOut :=
  .error (.http 500 (tokenDetail m))

/-- The `/get-realtime-token` handler. -/
def get_realtime_token (env : TokenEnv) : Except Exc TokenOut :=
  let inner : Except String TokenOut :=
    if env.apiKey = "" then .error "AssemblyAI API key not found"
    else if env.testStatus = 401 then
      .error "Invalid AssemblyAI API key - basic API test failed"
    else if env.tokStatus = 401 then .error msg401
    else if env.tokStatus = 403 then .error msg403
    else if env.tokStatus = 404 then .error msg404
    else if env.tokStatus ≠ 200 then .error (msgOther env.tokStatus env.tokText)
    else if !env.tokJsonOk then .error ("Invalid JSON response: " ++ env.tokText)
    else
      match env.tokToken with
      | none => .error ("No token in response: " ++ env.tokJsonRepr)
      | some tok =>
        .ok ⟨tok, "streaming.assemblyai.com",
          "wss://streaming.assemblyai.com/v3/streaming?token=" ++ tok⟩
  match inner with
  | .ok v => .ok v
  | .error m => wrapTokenFail m

/-- A concrete `/transcribe` request whose job completes on the first
poll with a detected language. -/
def envCompleted1 : TranscribeEnv :=
  ⟨"audio/wav", "a.wav", "RIFFbytes", "id0", .ok "https://u", .ok "tid",
    fun _ => ⟨none, "completed", "hola", some "es", ""⟩⟩

/-- A concrete `/transcribe` request whose job never leaves
`processing`. -/
def envProcessing : TranscribeEnv :=
  ⟨"audio/wav", "a.wav", "RIFFbytes", "id1", .ok "https://u", .ok "tid",
    fun _ => ⟨none, "processing", "", none, ""⟩⟩

/-- A concrete `/transcribe` request whose job reports `error` on the
second poll. -/
def envErrored2 : TranscribeEnv :=
  ⟨"audio/wav", "a.wav", "RIFFbytes", "id2", .ok "https://u", .ok "tid",
    fun i => if i = 0 then ⟨none, "processing", "", none, ""⟩
      else ⟨none, "error", "", none, "bad audio"⟩⟩

/-- A concrete non-audio `/transcribe` request. -/
def envNonAudio : TranscribeEnv :=
  ⟨"text/plain", "a.txt", "hello", "id3", .ok "https://u", .ok "tid",
    fun _ => ⟨none, "completed", "", none, ""⟩⟩

/-- A concrete `/tts` request the provider rejects with a 403. -/
def envTtsFail : TtsEnv := ⟨"hello", "xx", "ab12cd34", 403, "quota exceeded"⟩

/-- A concrete `/tts` request (used for the sweep-pattern analysis). -/
def envTtsOk : TtsEnv := ⟨"hello", "en", "q8r7s6t5", 200, "MP3BYTES"⟩

/-- A concrete `/get-realtime-token` request whose streaming-token call
returns 403. -/
def envTok403 : TokenEnv := ⟨"key", 200, 403, true, none, "denied", "\x7b\x7d"⟩

/-! ### Helper lemmas about the polling loop -/

theorem pollLoop_nonterminal_step (polls : Nat → PollResp) (i fuel : Nat)
    (h : NonTerminal (polls i)) :
    pollLoop polls i (fuel + 1) =
      ((pollLoop polls (i + 1) fuel).1, (pollLoop polls (i + 1) fuel).2 + 1) := by
  obtain ⟨h1, h2, h3⟩ := h
  simp [pollLoop, h1, h2, h3]

theorem pollLoop_timeout (polls : Nat → PollResp) :
    ∀ fuel i, (∀ j, j < fuel → NonTerminal (polls (i + j))) →
      pollLoop polls i fuel = (.error (.http 500 "Transcription timeout"), fuel) := by
  intro fuel
  induction fuel with
  | zero => intro i _; rfl
  | succ f ih =>
    intro i h
    have h0 : NonTerminal (polls i) := by simpa using h 0 (Nat.succ_pos f)
    rw [pollLoop_nonterminal_step polls i f h0]
    rw [ih (i + 1) (fun j hj => by
      have := h (j + 1) (Nat.succ_lt_succ hj)
      have e : i + (j + 1) = i + 1 + j := by omega
      rwa [e] at this)]

theorem pollLoop_completed (polls : Nat → PollResp) :
    ∀ k i fuel, k + 1 ≤ fuel →
      (∀ j, j < k → NonTerminal (polls (i + j))) →
      (polls (i + k)).httpError = none →
      (polls (i + k)).status = "completed" →
      pollLoop polls i fuel =
        (.ok ⟨(polls (i + k)).text, ((polls (i + k)).language_code).getD "unknown"⟩,
          k + 1) := by
  intro k
  induction k with
  | zero =>
    intro i fuel hf _ hN hS
    match fuel, hf with
    | f + 1, _ =>
      rw [Nat.add_zero] at hN hS
      simp [pollLoop, hN, hS]
  | succ k ih =>
    intro i fuel hf h hN hS
    match fuel, hf with
    | f + 1, hf =>
      have h0 : NonTerminal (polls i) := by simpa using h 0 (Nat.succ_pos k)
      rw [pollLoop_nonterminal_step polls i f h0]
      have e : i + (k + 1) = i + 1 + k := by omega
      rw [e] at hN hS
      rw [ih (i + 1) f (by omega)
        (fun j hj => by
          have := h (j + 1) (Nat.succ_lt_succ hj)
          have e2 : i + (j + 1) = i + 1 + j := by omega
          rwa [e2] at this) hN hS]
      rw [e]

theorem pollLoop_error (polls : Nat → PollResp) :
    ∀ k i fuel, k + 1 ≤ fuel →
      (∀ j, j < k → NonTerminal (polls (i + j))) →
      (polls (i + k)).httpError = none →
      (polls (i + k)).status = "error" →
      pollLoop polls i fuel =
        (.error (.http 500 ("AssemblyAI error: " ++ (polls (i + k)).errMsg)),
          k + 1) := by
  intro k
  induction k with
  | zero =>
    intro i fuel hf _ hN hS
    match fuel, hf with
    | f + 1, _ =>
      rw [Nat.add_zero] at hN hS
      have hne : (polls i).status ≠ "completed" := by
        rw [hS]; decide
      simp [pollLoop, hN, hS, hne]
  | succ k ih =>
    intro i fuel hf h hN hS
    match fuel, hf with
    | f + 1, hf =>
      have h0 : NonTerminal (polls i) := by simpa using h 0 (Nat.succ_pos k)
      rw [pollLoop_nonterminal_step polls i f h0]
      have e : i + (k + 1) = i + 1 + k := by omega
      rw [e] at hN hS
      rw [ih (i + 1) f (by omega)
        (fun j hj => by
          have := h (j + 1) (Nat.succ_lt_succ hj)
          have e2 : i + (j + 1) = i + 1 + j := by omega
          rwa [e2] at this) hN hS]
      rw [e]

/-! ### General string and list helpers -/

theorem get?_append_of_length {α : Type} :
    ∀ (l r : List α), (l ++ r).get? l.length = r.get? 0 := by
  intro l
  induction l with
  | nil => intro r; rfl
  | cons a l ih => intro r; simpa using ih r

theorem string_ne_of_get44 {a b : String} {x y : Char}
    (hx : a.data.get? 44 = some x) (hy : b.data.get? 44 = some y)
    (hxy : x ≠ y) : a ≠ b := by
  intro e
  rw [e] at hx
  rw [hy] at hx
  exact hxy (Option.some.inj hx).symm

theorem append_append_lit (a b ab m : String) (h : a ++ b = ab) :
    a ++ (b ++ m) = ab ++ m := by
  rw [← String.append_assoc, h]

/-! ### Claim theorems -/

/-- Claim C1: for a `/transcribe` request whose media type indicates audio
and whose upload and submit calls succeed, if the polled job status first
becomes `completed` on poll attempt `k` (1 ≤ k ≤ 30), then exactly `k`
status calls are made and the handler returns the transcript text and the
detected language code, with the sentinel `"unknown"` when the provider
response omits `language_code`. -/
theorem transcribe_completed_k_polls (env : TranscribeEnv) (fs : FileSys) (k : Nat)
    (haudio : pyStartsWith env.contentType "audio/" = true)
    (hup : ∃ u, env.upload = Except.ok u)
    (hsub : ∃ t, env.submit = Except.ok t)
    (hk1 : 1 ≤ k) (hk30 : k ≤ 30)
    (hpre : ∀ j, j < k - 1 → NonTerminal (env.polls j))
    (hN : (env.polls (k - 1)).httpError = none)
    (hS : (env.polls (k - 1)).status = "completed") :
    (transcribe_audio env fs).statusCalls = k ∧
    (transcribe_audio env fs).response =
      Except.ok ⟨(env.polls (k - 1)).text,
        ((env.polls (k - 1)).language_code).getD "unknown"⟩ := by
  obtain ⟨u, hu⟩ := hup
  obtain ⟨t, ht⟩ := hsub
  obtain ⟨k', rfl⟩ : ∃ k', k = k' + 1 := ⟨k - 1, by omega⟩
  have hk'' : k' + 1 - 1 = k' := by omega
  rw [hk''] at hpre hN hS ⊢
  have hloop := pollLoop_completed env.polls k' 0 30 (by omega)
      (fun j hj => by simpa using hpre j hj)
      (by simpa using hN) (by simpa using hS)
  constructor
  · simp [transcribe_audio, haudio, hu, ht, hloop]
  · simp [transcribe_audio, haudio, hu, ht, hloop]

/-- Witness for C1: a job that completes on the first poll with detected
language `es` yields one status call and `{text := "hola",
language_detected := "es"}`. -/
theorem transcribe_completed_k_polls_witness :
    (transcribe_audio envCompleted1 []).statusCalls = 1 ∧
    (transcribe_audio envCompleted1 []).response = Except.ok ⟨"hola", "es"⟩ := by
  have h := transcribe_completed_k_polls envCompleted1 [] 1 (by decide)
      ⟨"https://u", rfl⟩ ⟨"tid", rfl⟩ (by decide) (by decide)
      (fun j hj => absurd hj (by omega)) rfl rfl
  simpa using h

/-- Claim C2 (counterexample to the claim as stated): with all 30 polls
non-terminal, the handler does make exactly 30 status calls, but the
surfaced detail is not the bare string `"Transcription timeout"`: the
catch-all `except Exception` clause catches the inner
`HTTPException(500, "Transcription timeout")` and re-raises it with
`str(e)`, which prepends the status code. -/
theorem transcribe_timeout_counterexample :
    (∀ j, j < 30 → NonTerminal (envProcessing.polls j)) ∧
    (transcribe_audio envProcessing []).statusCalls = 30 ∧
    (transcribe_audio envProcessing []).response ≠
      Except.error (Exc.http 500 "Transcription timeout") := by
  refine ⟨fun j hj => ⟨rfl, fun h => by simp [envProcessing] at h,
    fun h => by simp [envProcessing] at h⟩, by decide, by decide⟩

/-- Claim C2 (amended): when all 30 status polls return a status that is
neither `completed` nor `error`, the handler makes exactly 30 status
calls and fails with HTTP 500 whose detail is the fixed message
`"500: Transcription timeout"` (the timeout message as re-wrapped by the
handler's catch-all exception clause). -/
theorem transcribe_timeout_amended (env : TranscribeEnv) (fs : FileSys)
    (haudio : pyStartsWith env.contentType "audio/" = true)
    (hup : ∃ u, env.upload = Except.ok u)
    (hsub : ∃ t, env.submit = Except.ok t)
    (hall : ∀ j, j < 30 → NonTerminal (env.polls j)) :
    (transcribe_audio env fs).statusCalls = 30 ∧
    (transcribe_audio env fs).response =
      Except.error (Exc.http 500 "500: Transcription timeout") := by
  obtain ⟨u, hu⟩ := hup
  obtain ⟨t, ht⟩ := hsub
  have hloop := pollLoop_timeout env.polls 30 0 (fun j hj => by simpa using hall j hj)
  have hdetail : strOfExc (.http 500 "Transcription timeout") =
      "500: Transcription timeout" := by decide
  constructor
  · simp [transcribe_audio, haudio, hu, ht, hloop]
  · simp [transcribe_audio, haudio, hu, ht, hloop, hdetail]

/-- Witness for the amended C2. -/
theorem transcribe_timeout_amended_witness :
    (transcribe_audio envProcessing []).statusCalls = 30 ∧
    (transcribe_audio envProcessing []).response =
      Except.error (Exc.http 500 "500: Transcription timeout") := by
  have h := transcribe_timeout_amended envProcessing [] (by decide)
      ⟨"https://u", rfl⟩ ⟨"tid", rfl⟩
      (fun j hj => ⟨rfl, fun h => by simp [envProcessing] at h,
        fun h => by simp [envProcessing] at h⟩)
  simpa using h

/-- Claim C3: for every `/transcribe` request that passes the audio
media-type check, the scratch input file is absent from the scratch
directory when the handler exits, on every exit path (the `finally`
clause runs after success, upstream failure, provider `error` status and
timeout alike; the environment quantifies over all of these). -/
theorem transcribe_scratch_cleanup (env : TranscribeEnv) (fs : FileSys)
    (haudio : pyStartsWith env.contentType "audio/" = true) :
    ∀ c, (inputPath env, c) ∉ (transcribe_audio env fs).files := by
  intro c hmem
  simp [transcribe_audio, haudio, removeFile, List.mem_filter] at hmem

/-- Witness for C3. -/
theorem transcribe_scratch_cleanup_witness :
    (inputPath envCompleted1, "RIFFbytes") ∉ (transcribe_audio envCompleted1 []).files :=
  transcribe_scratch_cleanup envCompleted1 [] (by decide) "RIFFbytes"

/-- Claim C4: a `/transcribe` request whose declared content type does not
start with `audio/` fails immediately with HTTP 400 `"Invalid audio
file"`; no scratch file is created (the directory is unchanged) and no
external call is made. -/
theorem transcribe_rejects_non_audio (env : TranscribeEnv) (fs : FileSys)
    (h : pyStartsWith env.contentType "audio/" = false) :
    (transcribe_audio env fs).response = Except.error (Exc.http 400 "Invalid audio file") ∧
    (transcribe_audio env fs).externalCalls = 0 ∧
    (transcribe_audio env fs).files = fs := by
  refine ⟨?_, ?_, ?_⟩ <;> simp [transcribe_audio, h]

/-- Witness for C4. -/
theorem transcribe_rejects_non_audio_witness :
    (transcribe_audio envNonAudio []).response = Except.error (Exc.http 400 "Invalid audio file") ∧
    (transcribe_audio envNonAudio []).externalCalls = 0 ∧
    (transcribe_audio envNonAudio []).files = [] :=
  transcribe_rejects_non_audio envNonAudio [] (by decide)

/-- Claim C5: when a status poll first returns `error` on attempt `k`,
polling stops at that attempt (exactly `k` status calls) and the handler
fails with HTTP 500 whose detail contains the provider's error message. -/
theorem transcribe_error_surfaced (env : TranscribeEnv) (fs : FileSys) (k : Nat)
    (haudio : pyStartsWith env.contentType "audio/" = true)
    (hup : ∃ u, env.upload = Except.ok u)
    (hsub : ∃ t, env.submit = Except.ok t)
    (hk1 : 1 ≤ k) (hk30 : k ≤ 30)
    (hpre : ∀ j, j < k - 1 → NonTerminal (env.polls j))
    (hN : (env.polls (k - 1)).httpError = none)
    (hS : (env.polls (k - 1)).status = "error") :
    (transcribe_audio env fs).statusCalls = k ∧
    ∃ pre post, (transcribe_audio env fs).response =
      Except.error (Exc.http 500 (pre ++ (env.polls (k - 1)).errMsg ++ post)) := by
  obtain ⟨u, hu⟩ := hup
  obtain ⟨t, ht⟩ := hsub
  obtain ⟨k', rfl⟩ : ∃ k', k = k' + 1 := ⟨k - 1, by omega⟩
  have hk'' : k' + 1 - 1 = k' := by omega
  rw [hk''] at hpre hN hS ⊢
  have hloop := pollLoop_error env.polls k' 0 30 (by omega)
      (fun j hj => by simpa using hpre j hj)
      (by simpa using hN) (by simpa using hS)
  constructor
  · simp [transcribe_audio, haudio, hu, ht, hloop]
  · refine ⟨(toString (500 : Nat) ++ ": ") ++ "AssemblyAI error: ", "", ?_⟩
    rw [String.append_empty, String.append_assoc]
    simp [transcribe_audio, haudio, hu, ht, hloop, strOfExc]

/-- Witness for C5: a job that reports `error` with message
`"bad audio"` on the second poll. -/
theorem transcribe_error_surfaced_witness :
    (transcribe_audio envErrored2 []).statusCalls = 2 ∧
    ∃ pre post, (transcribe_audio envErrored2 []).response =
      Except.error (Exc.http 500 (pre ++ "bad audio" ++ post)) := by
  have h := transcribe_error_surfaced envErrored2 [] 2 (by decide)
      ⟨"https://u", rfl⟩ ⟨"tid", rfl⟩ (by decide) (by decide)
      (fun j hj => by
        have : j = 0 := by omega
        subst this
        exact ⟨rfl, by decide, by decide⟩) rfl rfl
  simpa using h

/-- Claim C6: a language code that is a key of `TTS_VOICES` resolves to
the voice the table associates with it and to that code as the locale
tag; a code that is not a key resolves to the fixed fallback voice
`fa-IR-FaridNeural` and locale `fa-IR`; the lookup is a total function,
so neither case is an error. -/
theorem tts_voice_table (lang v : String) :
    ((lang, v) ∈ TTS_VOICES → ttsVoice lang = v ∧ ttsLangCode lang = lang) ∧
    (List.lookup lang TTS_VOICES = none →
      ttsVoice lang = "fa-IR-FaridNeural" ∧ ttsLangCode lang = "fa-IR") := by
  constructor
  · intro h
    simp [TTS_VOICES] at h
    rcases h with ⟨rfl, rfl⟩|⟨rfl, rfl⟩|⟨rfl, rfl⟩|⟨rfl, rfl⟩|⟨rfl, rfl⟩ <;>
      exact ⟨by decide, by decide⟩
  · intro h
    simp [ttsVoice, ttsLangCode, h]

/-- Witness for C6: the recognized code `en` and the unrecognized code
`xx`. -/
theorem tts_voice_table_witness :
    (("en", "en-US-JennyNeural") ∈ TTS_VOICES) ∧
    (ttsVoice "en" = "en-US-JennyNeural" ∧ ttsLangCode "en" = "en") ∧
    (List.lookup "xx" TTS_VOICES = none) ∧
    (ttsVoice "xx" = "fa-IR-FaridNeural" ∧ ttsLangCode "xx" = "fa-IR") :=
  ⟨by decide, (tts_voice_table "en" "en-US-JennyNeural").1 (by decide),
   by decide, (tts_voice_table "xx" "zz").2 (by decide)⟩

/-- Claim C7: `/translate` leaves the service state unchanged, and
repeating the same request against the same deterministic provider stub
returns an identical result. -/
theorem translate_pure_idempotent (stub : TransReq → Except String String)
    (text source_language target_language : String) (fs : FileSys) :
    (translate_text stub text source_language target_language fs).2 = fs ∧
    (translate_text stub text source_language target_language
        ((translate_text stub text source_language target_language fs).2)).1 =
      (translate_text stub text source_language target_language fs).1 := by
  cases h : stub ⟨text, source_language, target_language⟩ <;>
    simp [translate_text, h]

/-- Claim C8 (the code contradicts it): a scratch file created by `/tts`
is named `temp_audio/tmp<random>.mp3` by `tempfile.NamedTemporaryFile`,
which the shutdown sweep's glob `temp_audio/output_*.mp3` does not match,
so the sweep leaves it in place; a file named in the old `output_<uuid>`
style would have matched. -/
theorem tts_scratch_escapes_sweep :
    tmpNameOf envTtsOk = "temp_audio/tmpq8r7s6t5.mp3" ∧
    sweepMatches (tmpNameOf envTtsOk) = false ∧
    (tmpNameOf envTtsOk, "MP3BYTES") ∈
      cleanup_temp_files [(tmpNameOf envTtsOk, "MP3BYTES")] ∧
    sweepMatches "temp_audio/output_q8r7s6t5.mp3" = true := by
  exact ⟨rfl, by decide, by decide, by decide⟩

/-- Claim C10: `/tts` creates the (empty) scratch output file before
sending the synthesis request, so when the provider returns a non-200
status the handler fails with HTTP 500 and the empty scratch file is
still present afterwards, undeleted by the handler. -/
theorem tts_upstream_fail_scratch (env : TtsEnv) (fs : FileSys)
    (h : env.ttsStatus ≠ 200) :
    (text_to_speech env fs).1 =
      Except.error (Exc.http 500 ("500: Azure TTS error: " ++ env.ttsBody)) ∧
    (tmpNameOf env, "") ∈ (text_to_speech env fs).2 := by
  have hmerge : (toString (500 : Nat) ++ ": ") ++ "Azure TTS error: " =
      "500: Azure TTS error: " := by decide
  constructor
  · simp [text_to_speech, h, strOfExc]
    rw [← append_append_lit _ _ _ _ hmerge]
  · simp [text_to_speech, h, writeOut]

/-- Witness for C10: a 403 from the provider. -/
theorem tts_upstream_fail_scratch_witness :
    (text_to_speech envTtsFail []).1 =
      Except.error (Exc.http 500 ("500: Azure TTS error: " ++ "quota exceeded")) ∧
    (tmpNameOf envTtsFail, "") ∈ (text_to_speech envTtsFail []).2 :=
  tts_upstream_fail_scratch envTtsFail [] (by decide)

/-- The character list of the generic non-200 token-endpoint detail has
`'A'` (from `AssemblyAI Universal Streaming API returned ...`) right
after the 44-character wrapper text. -/
theorem tokenDetail_other_head (c : Nat) (t : String) :
    (tokenDetail (msgOther c t)).data.get? 44 = some 'A' := rfl

theorem token_distinct_gen401 (c : Nat) (t : String) :
    tokenDetail (msgOther c t) ≠ tokenDetail msg401 :=
  @string_ne_of_get44 _ _ 'A' 'I' (tokenDetail_other_head c t) (by decide) (by decide)

theorem token_distinct_gen403 (c : Nat) (t : String) :
    tokenDetail (msgOther c t) ≠ tokenDetail msg403 :=
  @string_ne_of_get44 _ _ 'A' 'U' (tokenDetail_other_head c t) (by decide) (by decide)

theorem token_distinct_gen404 (c : Nat) (t : String) :
    tokenDetail (msgOther c t) ≠ tokenDetail msg404 :=
  @string_ne_of_get44 _ _ 'A' 'U' (tokenDetail_other_head c t) (by decide) (by decide)

/-- Claim C9: with a configured key and a passing key-test call, the four
upstream outcomes of the streaming-token call (401, 403, 404, other
non-200) each surface as HTTP 500 with pairwise distinct detail strings,
while a 200 response carrying a `token` field yields the token, the fixed
`api_host`, and the websocket URL derived from the token. -/
theorem token_outcomes (env : TokenEnv)
    (hkey : env.apiKey ≠ "") (htest : env.testStatus ≠ 401) :
    (env.tokStatus = 401 →
      get_realtime_token env = Except.error (Exc.http 500 (tokenDetail msg401))) ∧
    (env.tokStatus = 403 →
      get_realtime_token env = Except.error (Exc.http 500 (tokenDetail msg403))) ∧
    (env.tokStatus = 404 →
      get_realtime_token env = Except.error (Exc.http 500 (tokenDetail msg404))) ∧
    (env.tokStatus ≠ 200 → env.tokStatus ≠ 401 → env.tokStatus ≠ 403 →
      env.tokStatus ≠ 404 →
      get_realtime_token env =
        Except.error (Exc.http 500 (tokenDetail (msgOther env.tokStatus env.tokText)))) ∧
    (∀ tok, env.tokStatus = 200 → env.tokJsonOk = true → env.tokToken = some tok →
      get_realtime_token env =
        Except.ok ⟨tok, "streaming.assemblyai.com",
          "wss://streaming.assemblyai.com/v3/streaming?token=" ++ tok⟩) ∧
    (tokenDetail msg401 ≠ tokenDetail msg403 ∧
     tokenDetail msg401 ≠ tokenDetail msg404 ∧
     tokenDetail msg403 ≠ tokenDetail msg404 ∧
     ∀ c t, tokenDetail (msgOther c t) ≠ tokenDetail msg401 ∧
       tokenDetail (msgOther c t) ≠ tokenDetail msg403 ∧
       tokenDetail (msgOther c t) ≠ tokenDetail msg404) := by
  refine ⟨?_, ?_, ?_, ?_, ?_, by decide, by decide, by decide,
    fun c t => ⟨token_distinct_gen401 c t, token_distinct_gen403 c t,
      token_distinct_gen404 c t⟩⟩
  · intro h
    simp [get_realtime_token, hkey, htest, h, wrapTokenFail]
  · intro h
    simp [get_realtime_token, hkey, htest, h, wrapTokenFail]
  · intro h
    simp [get_realtime_token, hkey, htest, h, wrapTokenFail]
  · intro h200 h401 h403 h404
    simp [get_realtime_token, hkey, htest, h200, h401, h403, h404, wrapTokenFail]
  · intro tok h200 hjson htok
    simp [get_realtime_token, hkey, htest, h200, hjson, htok, wrapTokenFail]

/-- Witness for C9: an upstream 403. -/
theorem token_outcomes_witness :
    get_realtime_token envTok403 =
      Except.error (Exc.http 500 (tokenDetail msg403)) :=
  (token_outcomes envTok403 (by decide) (by decide)).2.1 rfl
